import Mathlib

/-!
Shallow embedding of the client session orchestrator in
`src/frontend/src/App.tsx` (Booking voice agent frontend), and proofs of the
behavioural properties stated in the specification.

The component is single-threaded and event-driven, so its behaviour is
modelled as pure transition functions on an explicit state record mirroring
the React refs and state hooks of the component, plus a few dedicated little
machines (ICE-candidate trickling, browser-WebSocket backoff) for the parts
of the code that keep local mutable state inside a closure.
-/

namespace BookingApp

/-- Enum `ConnectionStatus` from App.tsx: `'idle' | 'connecting' | 'connected'`. -/
inductive ConnectionStatus
  | idle
  | connecting
  | connected
  deriving Repr, DecidableEq

/-- Chat message roles: `'user' | 'bot'`. -/
inductive Role
  | user
  | bot
  deriving Repr, DecidableEq

/-- Interface `ChatMessage`: `{role: 'user'|'bot', text: string}`. -/
structure ChatMessage where
  role : Role
  text : String
  deriving Repr, DecidableEq

/-- Interface `BookingParams`: all four fields optional. -/
structure BookingParams where
  destination : Option String
  checkin_date : Option String
  checkout_date : Option String
  adults : Option Int
  deriving Repr, DecidableEq

/-- The empty parameter object `{}` (all fields absent). -/
def emptyParams : BookingParams :=
  { destination := none, checkin_date := none, checkout_date := none, adults := none }

/-- Values of `RTCPeerConnection.connectionState` (a TS string union). -/
inductive PCState
  | new
  | connecting
  | connected
  | disconnected
  | failed
  | closed
  deriving Repr, DecidableEq

/-- Status of the browser WebSocket held in `browserWsRef`:
`connecting` right after `new WebSocket(...)`, `open` after `onopen`. -/
inductive WsStatus
  | connecting
  | open
  deriving Repr, DecidableEq

/-- The component state: React `useState` values and the `useRef` cells of
App.tsx.  Refs holding external resources (media stream, audio element, peer
connection, EventSource, timers) are modelled by whether they are non-null /
pending; `disconnected` is `disconnectedRef` (initialised `true`). -/
structure AppState where
  status : ConnectionStatus
  chatHistory : List ChatMessage
  bookingParams : BookingParams
  isBrowserActive : Bool
  browserStatus : String
  isMuted : Bool
  hasBrowserFrame : Bool
  pc : Bool
  pcId : Option String
  mediaStream : Bool
  remoteAudio : Bool
  eventSource : Bool
  sseReconnectTimer : Bool
  disconnected : Bool
  browserWs : Option WsStatus
  browserWsReconnectTimer : Bool
  browserWsRetryCount : Nat
  deriving Repr, DecidableEq

/-- Initial component state (the `useState`/`useRef` initialisers). -/
def initialState : AppState :=
  { status := .idle
    chatHistory := []
    bookingParams := emptyParams
    isBrowserActive := false
    browserStatus := "Waiting for search request..."
    isMuted := false
    hasBrowserFrame := false
    pc := false
    pcId := none
    mediaStream := false
    remoteAudio := false
    eventSource := false
    sseReconnectTimer := false
    disconnected := true
    browserWs := none
    browserWsReconnectTimer := false
    browserWsRetryCount := 0 }

/-- Function `disconnect()` (App.tsx lines 227-262): sets `disconnectedRef`, stops and
nulls the media stream, releases the remote audio sink, closes the peer
connection and clears `pcRef`/`pcIdRef`, closes the EventSource and cancels
the SSE reconnect timer, resets status/mute/browser-status text.  Per the
source comment it deliberately does NOT touch the browser WebSocket, its
reconnect timer, or its retry counter. -/
def disconnectState (s : AppState) : AppState :=
  { s with
    disconnected := true
    mediaStream := false
    remoteAudio := false
    pc := false
    pcId := none
    eventSource := false
    sseReconnectTimer := false
    status := .idle
    isMuted := false
    browserStatus := "Waiting for search request..." }

/-- External side effects performed by one call to `disconnect()`: each
guarded by the corresponding ref being non-null. -/
inductive Effect
  | stopMediaTracks
  | pauseRemoteAudio
  | closePeerConnection
  | closeEventSource
  | clearSseTimer
  deriving Repr, DecidableEq

/-- The observable external actions of `disconnect()` run on state `s`,
in program order. -/
def disconnectEffects (s : AppState) : List Effect :=
  (if s.mediaStream then [Effect.stopMediaTracks] else []) ++
  (if s.remoteAudio then [Effect.pauseRemoteAudio] else []) ++
  (if s.pc then [Effect.closePeerConnection] else []) ++
  (if s.eventSource then [Effect.closeEventSource] else []) ++
  (if s.sseReconnectTimer then [Effect.clearSseTimer] else [])

/-- Handler `pc.onconnectionstatechange` (App.tsx lines 302-306):
`connected` sets status to Connected; `failed` calls `disconnect()`;
every other state (including `disconnected`) falls through unhandled. -/
def onConnectionStateChange (st : PCState) (s : AppState) : AppState :=
  if st = PCState.connected then { s with status := .connected }
  else if st = PCState.failed then disconnectState s
  else s

/-- Branch `bot_response` of the SSE `onmessage` handler (App.tsx lines
169-177): if the last chat message is a bot message, replace it by the same
message with the fragment appended to its text; otherwise push a fresh bot
message. -/
def applyBotResponse (h : List ChatMessage) (text : String) : List ChatMessage :=
  match h.getLast? with
  | some last =>
      if last.role = Role.bot then
        h.dropLast ++ [{ role := Role.bot, text := last.text ++ text }]
      else
        h ++ [{ role := Role.bot, text := text }]
  | none => h ++ [{ role := Role.bot, text := text }]

/-- Whether the last chat message is a bot message (the condition
`last?.role === 'bot'` tested by the handler). -/
def lastIsBot (h : List ChatMessage) : Bool :=
  match h.getLast? with
  | some last => last.role = Role.bot
  | none => false

/-- Typed SSE events carried by `/api/events` messages.  `tool_called`
carries the optional `args` object (`data.args` may be absent, whence the
`?? {}` in the code); `malformed` stands for a payload whose JSON parse or
shape fails, swallowed by the `catch`. -/
inductive SseEvent
  | user_transcript (text : String)
  | bot_response (text : String)
  | tool_called (args : Option BookingParams)
  | tool_result (error : Bool)
  | malformed
  deriving Repr, DecidableEq

/-- Function `connectBrowserWs()` (App.tsx lines 47-53): returns immediately when the
current browser WebSocket is OPEN, otherwise creates a fresh WebSocket (which
starts in the CONNECTING state) and stores it in `browserWsRef`.  There is no
check of `disconnectedRef` in this function. -/
def connectBrowserWsRun (s : AppState) : AppState :=
  if s.browserWs = some WsStatus.open then s
  else { s with browserWs := some WsStatus.connecting }

/-- Body of the SSE `onmessage` handler (App.tsx lines 162-190), as a function of
the parsed event. -/
def handleSseEvent (s : AppState) (e : SseEvent) : AppState :=
  match e with
  | .user_transcript t =>
      { s with chatHistory := s.chatHistory ++ [{ role := Role.user, text := t }] }
  | .bot_response t =>
      { s with chatHistory := applyBotResponse s.chatHistory t }
  | .tool_called args =>
      connectBrowserWsRun
        { s with
          bookingParams := args.getD emptyParams
          isBrowserActive := true
          browserStatus := "🤖 Searching on Booking.com..." }
  | .tool_result err =>
      { s with browserStatus := if err then "❌ Search failed" else "✅ Search complete" }
  | .malformed => s

/-- Entry guards of `connectSSE()` and connection creation (App.tsx lines
153-158): a no-op when an EventSource already exists or when a disconnect was
requested; otherwise opens the stream. -/
def connectSSERun (s : AppState) : AppState :=
  if s.eventSource then s
  else if s.disconnected then s
  else { s with eventSource := true }

/-- The synchronous prefix of `startInteraction()` (App.tsx lines 267-274):
clear the disconnect flag, set status `connecting`, and reset chat history,
booking params, browser activity/status, mute, and frame flag. -/
def startReset (s : AppState) : AppState :=
  { s with
    disconnected := false
    status := .connecting
    chatHistory := []
    bookingParams := emptyParams
    isBrowserActive := false
    browserStatus := "Waiting for search request..."
    isMuted := false
    hasBrowserFrame := false }

/-- The start sequence up to and including a failing
`getUserMedia` call: the synchronous reset runs, `connectSSE()` runs, the
microphone acquisition throws, and the `catch` block (App.tsx lines 328-331)
only logs the error and sets status back to `idle`. -/
def startMicFailure (s : AppState) : AppState :=
  { connectSSERun (startReset s) with status := .idle }

/-! Event-level step machine.

Each asynchronous callback of the component, as a transition on `AppState`.
Handlers attached to a resource only run while that resource exists, so each
transition is guarded by the corresponding ref being live. -/

/-- The asynchronous events the component reacts to after start-up. -/
inductive AppEvent
  | userStop
  | connState (st : PCState)
  | sseMessage (e : SseEvent)
  | sseError
  | sseTimerFire
  | wsOpen
  | wsClose
  | wsTimerFire
  deriving Repr, DecidableEq

/-- One transition of the component.
* `userStop` — the user clicks Stop: `disconnect()`.
* `connState st` — `onconnectionstatechange` fires (only while the peer
  connection exists; `disconnect()` nulls the handler).
* `sseMessage e` — `es.onmessage` (only while the EventSource exists).
* `sseError` — `es.onerror`: closes the stream and, unless a disconnect was
  requested, schedules `connectSSE` after 2000 ms.
* `sseTimerFire` — the pending SSE reconnect timeout fires and runs
  `connectSSE()`.
* `wsOpen` — `ws.onopen`: marks the browser active; the retry counter is not
  touched.
* `wsClose` — `ws.onclose`: nulls `browserWsRef`; when the browser is active
  and no disconnect was requested, bumps the retry counter and schedules
  `connectBrowserWs`.
* `wsTimerFire` — the pending browser-WS reconnect timeout fires and runs
  `connectBrowserWs()`. -/
def step (s : AppState) (e : AppEvent) : AppState :=
  match e with
  | .userStop => disconnectState s
  | .connState st => if s.pc then onConnectionStateChange st s else s
  | .sseMessage ev => if s.eventSource then handleSseEvent s ev else s
  | .sseError =>
      if s.eventSource then
        { s with
          eventSource := false
          sseReconnectTimer := if s.disconnected then s.sseReconnectTimer else true }
      else s
  | .sseTimerFire =>
      if s.sseReconnectTimer then connectSSERun { s with sseReconnectTimer := false }
      else s
  | .wsOpen =>
      if s.browserWs = some WsStatus.connecting then
        { s with browserWs := some WsStatus.open, isBrowserActive := true }
      else s
  | .wsClose =>
      match s.browserWs with
      | some _ =>
          if s.isBrowserActive && !s.disconnected then
            { s with
              browserWs := none
              browserWsRetryCount := s.browserWsRetryCount + 1
              browserWsReconnectTimer := true }
          else { s with browserWs := none }
      | none => s
  | .wsTimerFire =>
      if s.browserWsReconnectTimer then
        connectBrowserWsRun { s with browserWsReconnectTimer := false }
      else s

/-! ICE candidate trickling (App.tsx lines 284-289 and 320-327)

`startInteraction` keeps a local `pending` array.  `pc.onicecandidate`
either sends the single candidate at once (when `pcIdRef` is set) or pushes
it into `pending`; once the answer arrives, `pcIdRef` is assigned and, if
`pending` is non-empty, one `PATCH /offer` batch with the whole array is
sent and the array is cleared (`pending.length = 0`).  `sendIceCandidates`
returns without a request for an empty list. -/

/-- State of the candidate-trickling logic: the known connection id, the
pending buffer, and the trace of batches sent to `PATCH /offer`
(each tagged with the `pc_id` it was addressed to). -/
structure IceState where
  pcId : Option String
  pending : List String
  sentBatches : List (String × List String)
  deriving Repr, DecidableEq

/-- Events of the trickling logic: local discovery of a candidate
(`onicecandidate` with a non-null candidate), and arrival of the
offer-endpoint response carrying `pc_id`. -/
inductive IceEvent
  | discover (c : String)
  | answerArrived (pcId : String)
  deriving Repr, DecidableEq

/-- One step of the trickling logic. -/
def iceStep (s : IceState) (e : IceEvent) : IceState :=
  match e with
  | .discover c =>
      match s.pcId with
      | some pid => { s with sentBatches := s.sentBatches ++ [(pid, [c])] }
      | none => { s with pending := s.pending ++ [c] }
  | .answerArrived pid =>
      if s.pending.isEmpty then
        { s with pcId := some pid }
      else
        { pcId := some pid
          pending := []
          sentBatches := s.sentBatches ++ [(pid, s.pending)] }

/-- The initial trickling state inside one `startInteraction` call. -/
def iceInit : IceState := { pcId := none, pending := [], sentBatches := [] }

/-! Browser-WebSocket backoff (App.tsx lines 55-58 and 80-90)

`ws.onclose` computes `delay = Math.min(1000 * 2 ** retryCount, 5000)` and
then increments `retryCount`; `ws.onopen` does not modify the counter (it is
reset to zero only in `disconnectBrowserWs`, i.e. on unmount). -/

/-- The reconnect delay scheduled when the socket closes with the given
current retry count. -/
def wsDelay (retry : Nat) : Nat := min (1000 * 2 ^ retry) 5000

/-- Close/open events on the browser WebSocket, for tracking the scheduled
delays. -/
inductive WsEvt
  | close
  | open_
  deriving Repr, DecidableEq

/-- Runs the retry counter over a sequence of close/open events (browser
active, no disconnect requested) and returns the list of scheduled reconnect
delays in order. -/
def wsRun (retry : Nat) (evts : List WsEvt) : List Nat :=
  match evts with
  | [] => []
  | WsEvt.close :: rest => wsDelay retry :: wsRun (retry + 1) rest
  | WsEvt.open_ :: rest => wsRun retry rest

/-! Coordinate scaling (App.tsx lines 119-127)

`scaleCoords` maps a mouse position over the canvas to the remote 1280×800
viewport: `Math.round((clientX - rect.left) / rect.width * 1280)` and
`Math.round((clientY - rect.top) / rect.height * 800)`.  Coordinates are
modelled over `ℚ`; `Math.round` rounds half toward +∞, i.e. `⌊q + 1/2⌋`. -/

/-- A DOM rectangle as returned by `getBoundingClientRect()`. -/
structure Rect where
  left : ℚ
  top : ℚ
  width : ℚ
  height : ℚ

/-- JavaScript `Math.round`: round half toward positive infinity. -/
def jsRound (q : ℚ) : ℤ := ⌊q + 1 / 2⌋

/-- Function `scaleCoords` on a non-null canvas with bounding rectangle `r` and mouse
position `(clientX, clientY)` (the null-canvas guard returns `(0,0)` before
this computation and is not modelled). -/
def scaleCoords (r : Rect) (clientX clientY : ℚ) : ℤ × ℤ :=
  (jsRound ((clientX - r.left) / r.width * 1280),
   jsRound ((clientY - r.top) / r.height * 800))

/-- Function `disconnectBrowserWs()` (App.tsx lines 97-108): cancels the
pending browser-WS reconnect timer, resets the retry counter to zero, closes
the socket, and clears the frame flag.  It is invoked only from the unmount
cleanup effect. -/
def disconnectBrowserWsRun (s : AppState) : AppState :=
  { s with
    browserWsReconnectTimer := false
    browserWsRetryCount := 0
    browserWs := none
    hasBrowserFrame := false }

/-- A concrete established-session state: audio connected, SSE open, no
disconnect requested. -/
def connectedState : AppState :=
  { initialState with
    status := .connected
    disconnected := false
    pc := true
    pcId := some "abc"
    mediaStream := true
    remoteAudio := true
    eventSource := true }

/-- A concrete established-session state in which the browser WebSocket has
just closed and its reconnect timer is pending (retry count 2). -/
def stoppedScenario : AppState :=
  { initialState with
    status := .connected
    disconnected := false
    pc := true
    pcId := some "abc"
    mediaStream := true
    eventSource := true
    isBrowserActive := true
    browserWs := none
    browserWsReconnectTimer := true
    browserWsRetryCount := 2 }

/-! Theorems. -/

/-- Helper: a chain of `discover` events before the answer arrives only
appends the candidates to the pending buffer, in discovery order. -/
lemma iceStep_discover_chain (cs : List String) :
    ∀ (p : List String) (sb : List (String × List String)),
      (cs.map IceEvent.discover).foldl iceStep
          { pcId := none, pending := p, sentBatches := sb } =
        { pcId := none, pending := p ++ cs, sentBatches := sb } := by
  induction cs with
  | nil => intro p sb; simp
  | cons c cs ih =>
      intro p sb
      simp only [List.map_cons, List.foldl_cons]
      show (cs.map IceEvent.discover).foldl iceStep
          { pcId := none, pending := p ++ [c], sentBatches := sb } = _
      rw [ih]
      simp

/-- C1: every sequence of candidates discovered before `pc_id` is known is
buffered, then flushed to the backend as one batch in discovery order with
each candidate exactly once, and the buffer is cleared (a later candidate is
sent individually, never re-queued). -/
theorem ice_pending_flushed_in_order (cs : List String) (pid : String) :
    (((cs.map IceEvent.discover) ++ [IceEvent.answerArrived pid]).foldl iceStep iceInit).pcId
        = some pid ∧
    (((cs.map IceEvent.discover) ++ [IceEvent.answerArrived pid]).foldl iceStep iceInit).pending
        = [] ∧
    (((cs.map IceEvent.discover) ++ [IceEvent.answerArrived pid]).foldl iceStep iceInit).sentBatches
        = (if cs.isEmpty then [] else [(pid, cs)]) ∧
    ((((cs.map IceEvent.discover) ++ [IceEvent.answerArrived pid]).foldl iceStep
        iceInit).sentBatches.map Prod.snd).flatten = cs ∧
    ∀ d, iceStep (((cs.map IceEvent.discover) ++ [IceEvent.answerArrived pid]).foldl
          iceStep iceInit) (IceEvent.discover d) =
        { pcId := some pid
          pending := []
          sentBatches := (if cs.isEmpty then [] else [(pid, cs)]) ++ [(pid, [d])] } := by
  have hfold :
      ((cs.map IceEvent.discover) ++ [IceEvent.answerArrived pid]).foldl iceStep iceInit =
        iceStep { pcId := none, pending := cs, sentBatches := [] }
          (IceEvent.answerArrived pid) := by
    rw [List.foldl_append]
    have h0 := iceStep_discover_chain cs [] []
    simp only [List.nil_append] at h0
    rw [show iceInit = { pcId := none, pending := [], sentBatches := [] } from rfl, h0]
    simp
  rw [hfold]
  cases cs with
  | nil => simp [iceStep]
  | cons c cs => simp [iceStep]

/-- Helper: folding `bot_response` fragments onto a history whose last
message is a bot message only grows that message's text. -/
lemma foldl_applyBotResponse_bot (frags : List String) :
    ∀ (h : List ChatMessage) (t : String),
      frags.foldl applyBotResponse (h ++ [{ role := Role.bot, text := t }]) =
        h ++ [{ role := Role.bot, text := frags.foldl (fun a b => a ++ b) t }] := by
  induction frags with
  | nil => intro h t; simp
  | cons f fs ih =>
      intro h t
      have hstep : applyBotResponse (h ++ [{ role := Role.bot, text := t }]) f =
          h ++ [{ role := Role.bot, text := t ++ f }] := by
        unfold applyBotResponse
        simp
      simp only [List.foldl_cons, hstep]
      exact ih h (t ++ f)

/-- Helper: when the last message is not a bot message, a `bot_response`
fragment appends a fresh bot message. -/
lemma applyBotResponse_notBot (h : List ChatMessage) (f : String)
    (hLast : lastIsBot h = false) :
    applyBotResponse h f = h ++ [{ role := Role.bot, text := f }] := by
  unfold applyBotResponse
  unfold lastIsBot at hLast
  cases hl : h.getLast? with
  | none => simp
  | some m =>
      rw [hl] at hLast
      simp only [decide_eq_false_iff_not] at hLast
      simp [hLast]

/-- C5: a stream of `bot_response` fragments with no intervening
`user_transcript`, processed in arrival order on a history whose last message
is not a bot message, appends exactly one bot message whose text is the
concatenation of the fragments in arrival order; the first fragment is the
one that appends the new bot message. -/
theorem bot_response_stream_merges (h : List ChatMessage) (f : String) (fs : List String)
    (hLast : lastIsBot h = false) :
    (f :: fs).foldl applyBotResponse h =
      h ++ [{ role := Role.bot, text := String.join (f :: fs) }] ∧
    applyBotResponse h f = h ++ [{ role := Role.bot, text := f }] := by
  have hfirst := applyBotResponse_notBot h f hLast
  constructor
  · simp only [List.foldl_cons, hfirst]
    rw [foldl_applyBotResponse_bot fs h f]
    have : String.join (f :: fs) = fs.foldl (fun a b => a ++ b) f := by
      simp [String.join]
    rw [this]
  · exact hfirst

/-- Witness for C5 at a concrete history and fragment list. -/
theorem bot_response_stream_merges_witness :
    lastIsBot [{ role := Role.user, text := "hi" }] = false ∧
    ["Sure", ", checking"].foldl applyBotResponse [{ role := Role.user, text := "hi" }] =
      [{ role := Role.user, text := "hi" },
       { role := Role.bot, text := String.join ["Sure", ", checking"] }] :=
  ⟨rfl, (bot_response_stream_merges [{ role := Role.user, text := "hi" }]
      "Sure" [", checking"] rfl).1⟩

/-- Helper: opening (or skipping opening) the browser WebSocket does not
touch the booking parameters. -/
lemma connectBrowserWsRun_bookingParams (s : AppState) :
    (connectBrowserWsRun s).bookingParams = s.bookingParams := by
  unfold connectBrowserWsRun
  split <;> rfl

/-- C7: a `tool_called` event replaces `BookingParams` wholesale with the
event's argument object (or the empty object when `args` is absent): the new
state is exactly the event's fields, independent of every previously-set
field. -/
theorem tool_called_replaces_params (s : AppState) (a : BookingParams)
    (args : Option BookingParams) :
    (handleSseEvent s (SseEvent.tool_called (some a))).bookingParams = a ∧
    (handleSseEvent s (SseEvent.tool_called none)).bookingParams = emptyParams ∧
    (handleSseEvent s (SseEvent.tool_called args)).bookingParams = args.getD emptyParams := by
  refine ⟨?_, ?_, ?_⟩ <;>
    simp [handleSseEvent, connectBrowserWsRun_bookingParams]

/-- C8: `disconnect()` is idempotent — a second call from the state left by
a first call changes nothing and performs no external action (every guarded
branch is skipped, so nothing throws). -/
theorem disconnect_idempotent (s : AppState) :
    disconnectState (disconnectState s) = disconnectState s ∧
    disconnectEffects (disconnectState s) = [] :=
  ⟨rfl, rfl⟩

/-- Counterexample to C2: in an established session, a connection-state
change to `disconnected` leaves the state untouched — the teardown path is
not invoked (the media stream and event stream stay open, status stays
Connected, unlike after `disconnect()`). -/
theorem pc_disconnected_state_not_torn_down :
    step connectedState (AppEvent.connState PCState.disconnected) = connectedState ∧
    connectedState.status = ConnectionStatus.connected ∧
    connectedState.mediaStream = true ∧
    connectedState.eventSource = true ∧
    (disconnectState connectedState).status = ConnectionStatus.idle ∧
    step connectedState (AppEvent.connState PCState.disconnected) ≠
      disconnectState connectedState := by
  decide

/-- C2 amended: only a connection-state change to `failed` invokes the same
teardown path as an explicit stop; `connected` only sets the status, and
`disconnected` (like every other state) is unhandled and changes nothing. -/
theorem conn_state_teardown_only_on_failed (s : AppState) :
    onConnectionStateChange PCState.failed s = disconnectState s ∧
    onConnectionStateChange PCState.disconnected s = s ∧
    onConnectionStateChange PCState.connected s = { s with status := ConnectionStatus.connected } :=
  ⟨rfl, rfl, rfl⟩

/-- Helper: a browser-WS close event on a state with the disconnect flag set
schedules no retry and leaves the retry counter alone. -/
lemma step_wsClose_disconnected (t : AppState) (hd : t.disconnected = true) :
    (step t AppEvent.wsClose).browserWsReconnectTimer = t.browserWsReconnectTimer ∧
    (step t AppEvent.wsClose).browserWsRetryCount = t.browserWsRetryCount := by
  unfold step
  cases h : t.browserWs <;> simp [h, hd]

/-- Counterexample to C3: from an established session in which the browser
WebSocket has closed and its reconnect timer is pending, an explicit stop
leaves that timer pending, and when it fires after teardown it opens a new
browser WebSocket connection rather than no-opping. -/
theorem ws_reconnect_timer_survives_stop :
    (step stoppedScenario AppEvent.userStop).disconnected = true ∧
    (step stoppedScenario AppEvent.userStop).browserWsReconnectTimer = true ∧
    (step stoppedScenario AppEvent.userStop).browserWs = none ∧
    (step (step stoppedScenario AppEvent.userStop) AppEvent.wsTimerFire).browserWs =
      some WsStatus.connecting := by
  decide

/-- C3 amended: after an explicit stop the event-stream channel cannot
resurrect itself — the stop closes the stream and cancels its reconnect
timer, a later SSE timer fire or SSE error is a no-op, and a browser-WS
close after the stop schedules no retry (the flag is checked before
scheduling); but a browser-WS reconnect timer that was already pending
before the stop is not cancelled and opens a new connection when it fires
(the browser view is deliberately kept alive after voice teardown). -/
theorem stop_reconnect_guards (s : AppState)
    (hT : s.browserWsReconnectTimer = true)
    (hW : s.browserWs ≠ some WsStatus.open) :
    (step s AppEvent.userStop).eventSource = false ∧
    (step s AppEvent.userStop).sseReconnectTimer = false ∧
    (step s AppEvent.userStop).disconnected = true ∧
    step (step s AppEvent.userStop) AppEvent.sseTimerFire = step s AppEvent.userStop ∧
    step (step s AppEvent.userStop) AppEvent.sseError = step s AppEvent.userStop ∧
    (step (step s AppEvent.userStop) AppEvent.wsClose).browserWsReconnectTimer =
      (step s AppEvent.userStop).browserWsReconnectTimer ∧
    (step (step s AppEvent.userStop) AppEvent.wsClose).browserWsRetryCount =
      (step s AppEvent.userStop).browserWsRetryCount ∧
    (step (step s AppEvent.userStop) AppEvent.wsTimerFire).browserWs =
      some WsStatus.connecting := by
  have hclose := step_wsClose_disconnected (disconnectState s) rfl
  refine ⟨rfl, rfl, rfl, rfl, rfl, hclose.1, hclose.2, ?_⟩
  show (step (disconnectState s) AppEvent.wsTimerFire).browserWs = some WsStatus.connecting
  unfold step
  have hT' : (disconnectState s).browserWsReconnectTimer = true := hT
  rw [hT']
  simp only [if_true]
  unfold connectBrowserWsRun
  have hW' :
      ¬ ({ disconnectState s with browserWsReconnectTimer := false }.browserWs
          = some WsStatus.open) := hW
  rw [if_neg hW']

/-- Witness for C3 (amended) at the concrete stopped scenario. -/
theorem stop_reconnect_guards_witness :
    stoppedScenario.browserWsReconnectTimer = true ∧
    stoppedScenario.browserWs ≠ some WsStatus.open ∧
    ((step stoppedScenario AppEvent.userStop).eventSource = false ∧
     (step stoppedScenario AppEvent.userStop).sseReconnectTimer = false ∧
     (step stoppedScenario AppEvent.userStop).disconnected = true ∧
     step (step stoppedScenario AppEvent.userStop) AppEvent.sseTimerFire =
       step stoppedScenario AppEvent.userStop ∧
     step (step stoppedScenario AppEvent.userStop) AppEvent.sseError =
       step stoppedScenario AppEvent.userStop ∧
     (step (step stoppedScenario AppEvent.userStop) AppEvent.wsClose).browserWsReconnectTimer =
       (step stoppedScenario AppEvent.userStop).browserWsReconnectTimer ∧
     (step (step stoppedScenario AppEvent.userStop) AppEvent.wsClose).browserWsRetryCount =
       (step stoppedScenario AppEvent.userStop).browserWsRetryCount ∧
     (step (step stoppedScenario AppEvent.userStop) AppEvent.wsTimerFire).browserWs =
       some WsStatus.connecting) :=
  ⟨rfl, by decide, stop_reconnect_guards stoppedScenario rfl (by decide)⟩

/-- Helper: consecutive close events schedule delays `wsDelay r`,
`wsDelay (r+1)`, … in order. -/
lemma wsRun_replicate : ∀ (n r : Nat),
    wsRun r (List.replicate n WsEvt.close) =
      (List.range n).map (fun i => wsDelay (r + i)) := by
  intro n
  induction n with
  | zero => intro r; simp [wsRun]
  | succ n ih =>
      intro r
      rw [List.replicate_succ]
      show wsDelay r :: wsRun (r + 1) (List.replicate n WsEvt.close) = _
      rw [ih (r + 1), List.range_succ_eq_map, List.map_cons, List.map_map]
      congr 1
      rw [show ((fun i => wsDelay (r + i)) ∘ Nat.succ) = (fun i => wsDelay (r + 1 + i))
        from funext fun i => congrArg wsDelay (by omega)]

/-- Counterexample to C4: the retry counter is not reset by a successful
open — after close, open, close the scheduled delays are 1000 ms then
2000 ms, whereas a counter reset on open would make the second delay start
again at the 1000 ms base. -/
theorem ws_backoff_counter_not_reset_on_open :
    wsRun 0 [WsEvt.close, WsEvt.open_, WsEvt.close] = [1000, 2000] ∧
    (2000 : Nat) ≠ min (1000 * 2 ^ (1 - 1)) 5000 := by
  decide

/-- C4 amended: starting from a fresh retry counter, the Nth of N
consecutive close events schedules a delay of `min (1000 * 2^(N-1)) 5000`
milliseconds; a successful open leaves the counter untouched (delays keep
doubling across opens), and the counter is reset to zero only by the
explicit browser-WS teardown `disconnectBrowserWs`. -/
theorem ws_backoff_delay_schedule (r : Nat) (evts : List WsEvt) (N : Nat) (s : AppState) :
    wsRun 0 (List.replicate N WsEvt.close) =
      (List.range N).map (fun i => min (1000 * 2 ^ i) 5000) ∧
    wsRun r (WsEvt.open_ :: evts) = wsRun r evts ∧
    (disconnectBrowserWsRun s).browserWsRetryCount = 0 := by
  refine ⟨?_, rfl, rfl⟩
  rw [wsRun_replicate N 0]
  simp [wsDelay]

/-- Counterexample to C6: when microphone acquisition fails during the
start sequence, the catch block only sets the status back to Idle — the
disconnect-requested flag remains cleared and the event stream opened by
the start sequence remains open. -/
theorem mic_failure_leaves_sse_open :
    (startMicFailure initialState).status = ConnectionStatus.idle ∧
    (startMicFailure initialState).disconnected = false ∧
    (startMicFailure initialState).eventSource = true := by
  decide

/-- C6 amended: on microphone-acquisition failure the controller returns to
Idle, but applies none of the Idle-transition side effects: the
disconnect-requested flag stays false, the event stream stays open, and a
pending SSE reconnect timer is not cancelled (chat history and booking
params were already reset by the synchronous start prefix). -/
theorem mic_failure_sets_idle_only (s : AppState) :
    (startMicFailure s).status = ConnectionStatus.idle ∧
    (startMicFailure s).disconnected = false ∧
    (startMicFailure s).eventSource = true ∧
    (startMicFailure s).sseReconnectTimer = s.sseReconnectTimer ∧
    (startMicFailure s).chatHistory = [] ∧
    (startMicFailure s).bookingParams = emptyParams := by
  by_cases h : s.eventSource <;>
    simp [startMicFailure, connectSSERun, startReset, h]

/-- C9: the coordinate mapping is
`remoteX = round((localX - left) / width * 1280)` (and analogously with 800
for Y), and a click at the exact center of any displayed surface with
positive dimensions maps to `(640, 400)`. -/
theorem scaleCoords_center_maps (r : Rect) (hw : 0 < r.width) (hh : 0 < r.height) :
    scaleCoords r (r.left + r.width / 2) (r.top + r.height / 2) = (640, 400) ∧
    ∀ x y : ℚ, scaleCoords r x y =
      (jsRound ((x - r.left) / r.width * 1280), jsRound ((y - r.top) / r.height * 800)) := by
  constructor
  · have hwne : r.width ≠ 0 := ne_of_gt hw
    have hhne : r.height ≠ 0 := ne_of_gt hh
    have hx : (r.left + r.width / 2 - r.left) / r.width * 1280 = 640 := by
      field_simp; ring
    have hy : (r.top + r.height / 2 - r.top) / r.height * 800 = 400 := by
      field_simp; ring
    unfold scaleCoords
    rw [hx, hy]
    unfold jsRound
    simp only [Prod.mk.injEq]
    constructor <;> norm_num [Int.floor_eq_iff]
  · intro x y; rfl

/-- Witness for C9 at a concrete 100×50 surface placed at (10, 20). -/
theorem scaleCoords_center_maps_witness :
    (0 : ℚ) < 100 ∧ (0 : ℚ) < 50 ∧
    scaleCoords { left := 10, top := 20, width := 100, height := 50 }
      (10 + 100 / 2) (20 + 50 / 2) = (640, 400) :=
  ⟨by norm_num, by norm_num,
   (scaleCoords_center_maps { left := 10, top := 20, width := 100, height := 50 }
      (by norm_num) (by norm_num)).1⟩

/-- Helper: one step from any state with the disconnect flag set, the
stream closed, and no pending SSE timer keeps that invariant and preserves
the chat history and the booking parameters. -/
lemma step_post_stop_frame (t : AppState) (e : AppEvent)
    (hd : t.disconnected = true) (he : t.eventSource = false)
    (ht : t.sseReconnectTimer = false) :
    (step t e).disconnected = true ∧ (step t e).eventSource = false ∧
    (step t e).sseReconnectTimer = false ∧
    (step t e).chatHistory = t.chatHistory ∧
    (step t e).bookingParams = t.bookingParams := by
  cases e with
  | userStop => exact ⟨rfl, rfl, rfl, rfl, rfl⟩
  | connState st =>
      by_cases hpc : t.pc
      · simp only [step, hpc, if_true]
        unfold onConnectionStateChange
        by_cases h1 : st = PCState.connected
        · simp [h1, hd, he, ht]
        · by_cases h2 : st = PCState.failed
          · simp [h1, h2, disconnectState]
          · simp [h1, h2, hd, he, ht]
      · simp [step, hpc, hd, he, ht]
  | sseMessage ev => simp [step, he, hd, ht]
  | sseError => simp [step, he, hd, ht]
  | sseTimerFire => simp [step, ht, hd, he]
  | wsOpen =>
      by_cases h : t.browserWs = some WsStatus.connecting <;>
        simp [step, h, hd, he, ht]
  | wsClose =>
      cases h : t.browserWs with
      | none => simp [step, h, hd, he, ht]
      | some w => simp [step, h, hd, he, ht]
  | wsTimerFire =>
      by_cases h : t.browserWsReconnectTimer
      · unfold step connectBrowserWsRun
        rw [h]
        simp only [if_true]
        split <;> simp [hd, he, ht]
      · simp [step, h, hd, he, ht]

/-- Helper: along any event trace from such a state, the chat history and
the booking parameters never change. -/
lemma foldl_step_post_stop (es : List AppEvent) :
    ∀ (t : AppState), t.disconnected = true → t.eventSource = false →
      t.sseReconnectTimer = false →
      (es.foldl step t).chatHistory = t.chatHistory ∧
      (es.foldl step t).bookingParams = t.bookingParams := by
  induction es with
  | nil => intro t _ _ _; exact ⟨rfl, rfl⟩
  | cons e es ih =>
      intro t hd he ht
      obtain ⟨h1, h2, h3, h4, h5⟩ := step_post_stop_frame t e hd he ht
      have hrest := ih (step t e) h1 h2 h3
      simp only [List.foldl_cons]
      exact ⟨hrest.1.trans h4, hrest.2.trans h5⟩

/-- C10: an explicit stop leaves the chat history and the extracted booking
parameters unchanged, and so does every later event until the next session
start, whose synchronous prefix is what clears them. -/
theorem stop_preserves_transcript_and_params (s : AppState) (es : List AppEvent) :
    (es.foldl step (step s AppEvent.userStop)).chatHistory = s.chatHistory ∧
    (es.foldl step (step s AppEvent.userStop)).bookingParams = s.bookingParams ∧
    (startReset s).chatHistory = [] ∧
    (startReset s).bookingParams = emptyParams := by
  have h := foldl_step_post_stop es (step s AppEvent.userStop) rfl rfl rfl
  exact ⟨h.1, h.2, rfl, rfl⟩

end BookingApp

